import Mathlib

/-!
# Verification of the CoalSampleAnalyzer risk pipeline

Shallow embedding of the computational core of the CoalSampleAnalyzer
repository (`src/app.py` and `src/thermal_simulator.py`) over the rationals,
together with theorems settling the specification claims about it.

Python floats are modelled by `ℚ`; the Python `round(x, d)` (round half to
even on the scaled value) is modelled by `pyRound`; `None`-returning index
computations are modelled by `Option ℚ`; NumPy 2-D arrays are modelled by
`List ℚ` of their cells (the claims are all cell-wise).
-/

namespace CoalAnalyzer

/-- Python truthiness of an optional float: `if x:` is taken when `x` is
neither `None` nor `0`. -/
def truthy : Option ℚ → Bool
  | none => false
  | some v => v != 0

/-- Round half to even on integers scaled by `10^d`, as the Python `round(x, d)`
behaves on the idealized (exact-rational) value. -/
def roundHalfEven (x : ℚ) : ℤ :=
  let f := ⌊x⌋
  let r := x - f
  if r < 1/2 then f
  else if r > 1/2 then f + 1
  else if f % 2 = 0 then f else f + 1

/-- The Python `round(x, d)` on the rational model. -/
def pyRound (x : ℚ) (d : ℕ) : ℚ :=
  (roundHalfEven (x * 10 ^ d) : ℚ) / 10 ^ d

/-! ## `CoalSpontaneousAnalyzer` (src/app.py) -/

/-- Embedding of `CoalSpontaneousAnalyzer.crossing_point_temperature` (src/app.py:50-74):
normalizes the four proximate values to percentages when their total
exceeds 100, applies the empirical CPT formula, and bounds the result
to [120, 200]. The `try`/`except` cannot fire on the rational model
(the only division is by `total > 100`, which is nonzero). -/
def crossing_point_temperature (moisture volatile_matter ash fixed_carbon : ℚ) : ℚ :=
  let total := moisture + volatile_matter + ash + fixed_carbon
  let m := if total > 100 then moisture / total * 100 else moisture
  let v := if total > 100 then volatile_matter / total * 100 else volatile_matter
  let a := if total > 100 then ash / total * 100 else ash
  let f := if total > 100 then fixed_carbon / total * 100 else fixed_carbon
  let cpt := 150 + (3/10) * a - (1/2) * v + (1/5) * m + (1/10) * f
  max 120 (min 200 cpt)

/-- Embedding of `CoalSpontaneousAnalyzer.liability_index` (src/app.py:76-91):
`None` when `ash == 0`, otherwise `round(moisture*volatile_matter/ash, 2)`. -/
def liability_index (moisture volatile_matter ash : ℚ) : Option ℚ :=
  if ash = 0 then none
  else some (pyRound (moisture * volatile_matter / ash) 2)

/-- Embedding of `CoalSpontaneousAnalyzer.wits_index` (src/app.py:93-105):
`round((moisture+volatile_matter)*oxygen/(ash+1), 2)`; a zero divisor
(`ash = -1`) raises `ZeroDivisionError`, caught and turned into `None`. -/
def wits_index (moisture volatile_matter ash oxygen : ℚ) : Option ℚ :=
  if ash + 1 = 0 then none
  else some (pyRound ((moisture + volatile_matter) * oxygen / (ash + 1)) 2)

/-- Embedding of `CoalSpontaneousAnalyzer.olpinski_index` (src/app.py:107-119):
`None` when `ash + volatile_matter == 0`, otherwise
`round(moisture/(ash+volatile_matter), 3)`. -/
def olpinski_index (moisture volatile_matter ash : ℚ) : Option ℚ :=
  if ash + volatile_matter = 0 then none
  else some (pyRound (moisture / (ash + volatile_matter)) 3)

/-- Result record of `CoalSpontaneousAnalyzer.risk_assessment`. -/
structure RiskAssessment where
  overall_risk : String
  risk_score : ℚ
  risk_factors : List String
  color : String
deriving Repr, DecidableEq

/-- The overall-risk classification at the end of
`CoalSpontaneousAnalyzer.risk_assessment` (src/app.py:176-188). -/
def chemClassify (risk_score : ℚ) : String × String :=
  if risk_score ≥ 80 then ("CRITICAL", "danger")
  else if risk_score ≥ 60 then ("HIGH", "warning")
  else if risk_score ≥ 40 then ("MODERATE", "info")
  else ("LOW", "success")

/-- Embedding of `CoalSpontaneousAnalyzer.risk_assessment` (src/app.py:121-195):
sequentially accumulates band scores and factor strings for CPT,
liability index and WITS index (guarded by Python truthiness `if cpt:`
etc., so a value of `0` is skipped exactly like `None`), adds the two
environmental bonuses, then classifies. `oi` is accepted but unused. -/
def risk_assessment (cpt li wits _oi : Option ℚ) (ambient_temp ventilation_rate : ℚ) :
    RiskAssessment :=
  let cptC : List String × ℚ :=
    if truthy cpt then
      let c := cpt.getD 0
      if c < 140 then (["Very High CPT Risk (CPT < 140°C)"], 40)
      else if c < 150 then (["High CPT Risk (CPT 140-150°C)"], 30)
      else if c < 160 then (["Moderate CPT Risk (CPT 150-160°C)"], 20)
      else (["Low CPT Risk (CPT > 160°C)"], 10)
    else ([], 0)
  let liC : List String × ℚ :=
    if truthy li then
      let l := li.getD 0
      if l > 2 then (["High Liability Index Risk (LI > 2.0)"], 25)
      else if l > 1 then (["Moderate Liability Index Risk (LI 1.0-2.0)"], 15)
      else (["Low Liability Index Risk (LI < 1.0)"], 5)
    else ([], 0)
  let witsC : List String × ℚ :=
    if truthy wits then
      let w := wits.getD 0
      if w > 5 then (["High WITS Index Risk (WITS > 5.0)"], 20)
      else if w > 2 then (["Moderate WITS Index Risk (WITS 2.0-5.0)"], 10)
      else (["Low WITS Index Risk (WITS < 2.0)"], 5)
    else ([], 0)
  let tempC : List String × ℚ :=
    if ambient_temp > 30 then (["High Ambient Temperature Risk (> 30°C)"], 15) else ([], 0)
  let ventC : List String × ℚ :=
    if ventilation_rate < 1/2 then (["Poor Ventilation Risk (< 0.5 m/s)"], 15) else ([], 0)
  let risk_score := cptC.2 + liC.2 + witsC.2 + tempC.2 + ventC.2
  let risk_factors := cptC.1 ++ liC.1 ++ witsC.1 ++ tempC.1 ++ ventC.1
  let rc := chemClassify risk_score
  { overall_risk := rc.1, risk_score := risk_score, risk_factors := risk_factors, color := rc.2 }

/-! ## `ThermalSimulator` (src/thermal_simulator.py) -/

/-- One sampled environmental scenario instance
(`ThermalSimulator.generate_environmental_parameters`). -/
structure EnvironmentParams where
  ambient_temperature : ℚ
  relative_humidity : ℚ
  wind_speed : ℚ
  oxygen_content : ℚ
  atmospheric_pressure : ℚ
  pile_height : ℚ
  storage_duration : ℤ
deriving Repr, DecidableEq

/-- One cell of `np.clip(x, lo, hi)`: `minimum(hi, maximum(lo, x))`. -/
def npClip (x lo hi : ℚ) : ℚ := min (max x lo) hi

/-- Environmental multiplier of
`ThermalSimulator.simulate_thermal_distribution` (src/thermal_simulator.py:211-217):
`humidity_factor * wind_factor * pile_factor * duration_factor`. -/
def temp_multiplier (env : EnvironmentParams) : ℚ :=
  let humidity_factor := 1 + (env.relative_humidity - 50) / 200
  let wind_factor := max (1/2) (1 - env.wind_speed / 5)
  let pile_factor := 1 + (env.pile_height - 3) / 10
  let duration_factor := 1 + ((env.storage_duration : ℚ) - 1) / 50
  humidity_factor * wind_factor * pile_factor * duration_factor

/-- Temperature-field step of
`ThermalSimulator.simulate_thermal_distribution` (src/thermal_simulator.py:207-223):
`temperature_map = clip(base_temp + thermal_map * 150 * temp_multiplier,
base_temp, base_temp + 180)`, cell-wise over the thermal map. -/
def simulate_temperature_map (env : EnvironmentParams) (thermal_map : List ℚ) : List ℚ :=
  thermal_map.map fun t =>
    npClip (env.ambient_temperature + t * 150 * temp_multiplier env)
      env.ambient_temperature (env.ambient_temperature + 180)

/-- Summary statistics of a temperature field
(`ThermalSimulator.create_thermal_visualization`, src/thermal_simulator.py:273-279). -/
structure TempStats where
  min_temp : ℚ
  max_temp : ℚ
  avg_temp : ℚ
  hot_spot_count : ℤ
  critical_area_percentage : ℚ
deriving Repr, DecidableEq

/-- Embedding of `ThermalSimulator.assess_thermal_risk` (src/thermal_simulator.py:353-400):
sequential band accumulation over the temperature statistics, final score
returned as `min(thermal_risk_score, 100)`. The `temperature_map` argument
is accepted but not used by the scoring. The dynamically formatted factor
strings are not modelled; only the score is. -/
def assess_thermal_risk (_temperature_map : List ℚ) (ts : TempStats) : ℚ :=
  let s0 : ℚ := 0
  let s1 :=
    if ts.max_temp > 120 then s0 + 40
    else if ts.max_temp > 80 then s0 + 30
    else if ts.max_temp > 50 then s0 + 20
    else s0
  let s2 := if ts.avg_temp > 45 then s1 + 15 else s1
  let s3 :=
    if ts.critical_area_percentage > 20 then s2 + 20
    else if ts.critical_area_percentage > 10 then s2 + 10
    else s2
  let s4 :=
    if ts.hot_spot_count > 10 then s3 + 15
    else if ts.hot_spot_count > 5 then s3 + 8
    else s3
  min s4 100

/-- Synthesized proximate analysis
(`ThermalSimulator.generate_coal_properties_from_image`). -/
structure CoalProperties where
  moisture : ℚ
  volatile_matter : ℚ
  ash : ℚ
  fixed_carbon : ℚ
deriving Repr, DecidableEq

/-- Sum of the four proximate percentages (`total = sum(properties.values())`). -/
def propsTotal (p : CoalProperties) : ℚ :=
  p.moisture + p.volatile_matter + p.ash + p.fixed_carbon

/-- Normalization step of
`ThermalSimulator.generate_coal_properties_from_image` (src/thermal_simulator.py:329-334):
when the total is positive, scale every property by `100 / total`. -/
def normalizeProperties (p : CoalProperties) : CoalProperties :=
  if propsTotal p > 0 then
    let factor := 100 / propsTotal p
    { moisture := p.moisture * factor
      volatile_matter := p.volatile_matter * factor
      ash := p.ash * factor
      fixed_carbon := p.fixed_carbon * factor }
  else p

/-- Clamping step of
`ThermalSimulator.generate_coal_properties_from_image` (src/thermal_simulator.py:336-340):
`max(lo, min(hi, x))` with the per-property floors and ceilings. -/
def clampProperties (p : CoalProperties) : CoalProperties :=
  { moisture := max 1 (min 20 p.moisture)
    volatile_matter := max 15 (min 50 p.volatile_matter)
    ash := max 5 (min 35 p.ash)
    fixed_carbon := max 25 (min 70 p.fixed_carbon) }

/-! ## Embedding of `analyze_thermal_image` combination logic (src/app.py) -/

/-- Combined score of `analyze_thermal_image` (src/app.py:474):
`(standard_risk_score + thermal_risk_score) / 2`. -/
def combined_risk_score (standard_risk_score thermal_risk_score : ℚ) : ℚ :=
  (standard_risk_score + thermal_risk_score) / 2

/-- Overall-risk classification of the combined path in
`analyze_thermal_image` (src/app.py:478-489). -/
def combinedClassify (s : ℚ) : String × String :=
  if s ≥ 80 then ("CRITICAL", "danger")
  else if s ≥ 60 then ("HIGH", "warning")
  else if s ≥ 40 then ("MODERATE", "info")
  else ("LOW", "success")

/-! ## Spec-side definitions (written from the words of the specification,
for refinement comparisons against the source embeddings above) -/

/-- Formula of claim C10 for the rescaled inputs: the input rescaled to sum
to 100 whenever the total exceeds 100, the raw input otherwise. -/
def rescaled (x total : ℚ) : ℚ := if total > 100 then x / total * 100 else x

/-- CPT band of the chemical-score table in the spec: `<140 / 140-150 / 150-160 / >=160`
giving `40/30/20/10`. -/
def cptBand (c : ℚ) : ℚ :=
  if c < 140 then 40 else if c < 150 then 30 else if c < 160 then 20 else 10

/-- Liability-index band of the table in the spec: `>2.0 / 1.0-2.0 / <=1.0`
giving `25/15/5`. -/
def liBand (l : ℚ) : ℚ := if l > 2 then 25 else if l > 1 then 15 else 5

/-- WITS band of the table in the spec: `>5.0 / 2.0-5.0 / <=2.0` giving `20/10/5`. -/
def witsBand (w : ℚ) : ℚ := if w > 5 then 20 else if w > 2 then 10 else 5

/-- Environment bonuses of the spec: +15 when ambient temperature exceeds 30,
+15 when ventilation is below 0.5. -/
def envBonus (ambient_temp ventilation_rate : ℚ) : ℚ :=
  (if ambient_temp > 30 then 15 else 0) + (if ventilation_rate < 1/2 then 15 else 0)

/-- Chemical-score formula of claim C2, exactly as stated: every PRESENT index
(`some`, including a value of 0) contributes its band; `none` contributes 0. -/
def claimedChemicalScore (cpt li wits : Option ℚ) (ambient_temp ventilation_rate : ℚ) : ℚ :=
  (cpt.map cptBand).getD 0 + (li.map liBand).getD 0 + (wits.map witsBand).getD 0
    + envBonus ambient_temp ventilation_rate

/-- The amended chemical-score formula: an index contributes its band exactly
when it is present AND nonzero (Python truthiness); a present index whose
value is 0 is treated like an absent one and contributes 0. -/
def amendedChemicalScore (cpt li wits : Option ℚ) (ambient_temp ventilation_rate : ℚ) : ℚ :=
  (if truthy cpt then cptBand (cpt.getD 0) else 0)
    + (if truthy li then liBand (li.getD 0) else 0)
    + (if truthy wits then witsBand (wits.getD 0) else 0)
    + envBonus ambient_temp ventilation_rate

/-- Category table of the spec (claim C3), with both-sided band conditions:
`s >= 80` CRITICAL/danger, `60 <= s < 80` HIGH/warning, `40 <= s < 60`
MODERATE/info, LOW/success otherwise. -/
def specCategory (s : ℚ) : String × String :=
  if 80 ≤ s then ("CRITICAL", "danger")
  else if 60 ≤ s ∧ s < 80 then ("HIGH", "warning")
  else if 40 ≤ s ∧ s < 60 then ("MODERATE", "info")
  else ("LOW", "success")

/-- Thermal band sum of claim C4: max temperature `>120/>80/>50` giving
`40/30/20`, average temperature `>45` giving 15, critical-area percentage
`>20/>10` giving `20/10`, hot-spot count `>10/>5` giving `15/8`. -/
def thermalBandSum (ts : TempStats) : ℚ :=
  (if ts.max_temp > 120 then 40 else if ts.max_temp > 80 then 30
    else if ts.max_temp > 50 then 20 else 0)
  + (if ts.avg_temp > 45 then 15 else 0)
  + (if ts.critical_area_percentage > 20 then 20
    else if ts.critical_area_percentage > 10 then 10 else 0)
  + (if ts.hot_spot_count > 10 then 15 else if ts.hot_spot_count > 5 then 8 else 0)

/-- Per-property floor/ceiling bounds of the clamping step of the synthesizer. -/
def propsInBounds (p : CoalProperties) : Prop :=
  1 ≤ p.moisture ∧ p.moisture ≤ 20
    ∧ 15 ≤ p.volatile_matter ∧ p.volatile_matter ≤ 50
    ∧ 5 ≤ p.ash ∧ p.ash ≤ 35
    ∧ 25 ≤ p.fixed_carbon ∧ p.fixed_carbon ≤ 70

/-! ## Claims -/

/-- C6: for moisture=10, volatile_matter=35, ash=15, fixed_carbon=40,
`crossing_point_temperature` returns exactly 143.0, `liability_index`
returns 23.33, and `olpinski_index` returns 0.2. -/
theorem scenario1_index_values :
    crossing_point_temperature 10 35 15 40 = 143
      ∧ liability_index 10 35 15 = some (2333/100)
      ∧ olpinski_index 10 35 15 = some (1/5) := by
  refine ⟨?_, ?_, ?_⟩
  · norm_num [crossing_point_temperature]
  · norm_num [liability_index, pyRound, roundHalfEven]
  · norm_num [olpinski_index, pyRound, roundHalfEven]

/-- C7 counterexample: `wits_index 10 35 15 20.9` is NOT 587.8 as the claim
states; the code returns 58.78. -/
theorem wits_scenario_not_587_8 :
    wits_index 10 35 15 (209/10) ≠ some (5878/10) := by
  norm_num [wits_index, pyRound, roundHalfEven]

/-- C7 amended: for moisture=10, volatile_matter=35, ash=15, oxygen=20.9,
`wits_index` returns 58.78 (rounded to 2 decimal places). -/
theorem wits_scenario_value :
    wits_index 10 35 15 (209/10) = some (5878/100) := by
  norm_num [wits_index, pyRound, roundHalfEven]

/-- C8: for every moisture and volatile_matter, `liability_index` with
ash = 0 returns `none` (the division-by-zero guard), not an error. -/
theorem liability_index_zero_ash (moisture volatile_matter : ℚ) :
    liability_index moisture volatile_matter 0 = none := by
  simp [liability_index]

/-- C10: on the non-exceptional path, `crossing_point_temperature` equals
`max(120, min(200, 150 + 0.3*ashR - 0.5*volatile_matterR + 0.2*moistureR +
0.1*fixed_carbonR))` with the R-subscripted values rescaled to sum to 100 exactly
when the raw total exceeds 100; in particular the result always lies in
[120, 200]. -/
theorem cpt_formula_and_bounds (moisture volatile_matter ash fixed_carbon : ℚ) :
    crossing_point_temperature moisture volatile_matter ash fixed_carbon
        = max 120 (min 200
            (150 + (3/10) * rescaled ash (moisture + volatile_matter + ash + fixed_carbon)
              - (1/2) * rescaled volatile_matter (moisture + volatile_matter + ash + fixed_carbon)
              + (1/5) * rescaled moisture (moisture + volatile_matter + ash + fixed_carbon)
              + (1/10) * rescaled fixed_carbon (moisture + volatile_matter + ash + fixed_carbon)))
      ∧ 120 ≤ crossing_point_temperature moisture volatile_matter ash fixed_carbon
      ∧ crossing_point_temperature moisture volatile_matter ash fixed_carbon ≤ 200 := by
  refine ⟨rfl, le_max_left _ _, ?_⟩
  exact max_le (by norm_num) (min_le_left _ _)

/-- Accumulation step `if c then s + a else s` rewritten as adding a banded
contribution. -/
theorem ite_acc1 (c : Prop) [Decidable c] (s a : ℚ) :
    (if c then s + a else s) = s + if c then a else 0 := by
  split_ifs <;> simp

/-- Accumulation step with banded contributions in both branches. -/
theorem ite_acc2 (c : Prop) [Decidable c] (s a b : ℚ) :
    (if c then s + a else s + b) = s + if c then a else b := by
  split_ifs <;> rfl

/-- C4: `assess_thermal_risk` returns exactly the sum of the claimed band
contributions clamped from above to 100, hence always lies in [0, 100]. -/
theorem thermal_risk_eq_clamped_band_sum (temperature_map : List ℚ) (ts : TempStats) :
    assess_thermal_risk temperature_map ts = min (thermalBandSum ts) 100
      ∧ 0 ≤ assess_thermal_risk temperature_map ts
      ∧ assess_thermal_risk temperature_map ts ≤ 100 := by
  have h0 : (0:ℚ) ≤ thermalBandSum ts := by
    have b1 : (0:ℚ) ≤ if ts.max_temp > 120 then 40 else if ts.max_temp > 80 then 30
        else if ts.max_temp > 50 then 20 else 0 := by positivity
    have b2 : (0:ℚ) ≤ if ts.avg_temp > 45 then 15 else 0 := by positivity
    have b3 : (0:ℚ) ≤ if ts.critical_area_percentage > 20 then 20
        else if ts.critical_area_percentage > 10 then 10 else 0 := by positivity
    have b4 : (0:ℚ) ≤ if ts.hot_spot_count > 10 then 15
        else if ts.hot_spot_count > 5 then 8 else 0 := by positivity
    have := add_le_add (add_le_add (add_le_add b1 b2) b3) b4
    simpa [thermalBandSum] using this
  have h : assess_thermal_risk temperature_map ts = min (thermalBandSum ts) 100 := by
    simp only [assess_thermal_risk, thermalBandSum, ite_acc1, ite_acc2, zero_add]
  exact ⟨h, by rw [h]; exact le_min h0 (by norm_num), by rw [h]; exact min_le_right _ _⟩

/-- C9: the chemical scorer with all four indices `none` and environment in
safe bounds (ambient temperature at most 30, ventilation at least 0.5)
returns risk score 0 and category LOW with color success. -/
theorem all_none_safe_env_low (ambient_temp ventilation_rate : ℚ)
    (htemp : ambient_temp ≤ 30) (hvent : 1/2 ≤ ventilation_rate) :
    (risk_assessment none none none none ambient_temp ventilation_rate).risk_score = 0
      ∧ (risk_assessment none none none none ambient_temp ventilation_rate).overall_risk = "LOW"
      ∧ (risk_assessment none none none none ambient_temp ventilation_rate).color
          = "success" := by
  have h1 : ¬ ambient_temp > 30 := not_lt.mpr htemp
  have h2 : ¬ ventilation_rate < 1/2 := not_lt.mpr hvent
  have h2' : ¬ ventilation_rate < 2⁻¹ := by rw [← one_div]; exact h2
  simp only [risk_assessment, truthy, chemClassify, h1, h2, h2', if_false, ite_false]
  norm_num

/-- Witness for C9 at ambient temperature 25 and ventilation 1.0. -/
theorem all_none_safe_env_low_witness :
    (risk_assessment none none none none 25 1).risk_score = 0
      ∧ (risk_assessment none none none none 25 1).overall_risk = "LOW"
      ∧ (risk_assessment none none none none 25 1).color = "success" :=
  all_none_safe_env_low 25 1 (by norm_num) (by norm_num)

/-- C1: every cell of the temperature field produced by the thermal
simulation lies in the closed interval
[ambient_temperature, ambient_temperature + 180], for every environment
and every heat-intensity field. -/
theorem temperature_field_bounded (env : EnvironmentParams) (thermal_map : List ℚ) (c : ℚ)
    (hc : c ∈ simulate_temperature_map env thermal_map) :
    env.ambient_temperature ≤ c ∧ c ≤ env.ambient_temperature + 180 := by
  simp only [simulate_temperature_map, List.mem_map] at hc
  obtain ⟨t, -, rfl⟩ := hc
  unfold npClip
  constructor
  · exact le_min (le_max_right _ _) (by linarith)
  · exact min_le_right _ _

/-- A concrete environment instance used to witness `temperature_field_bounded`. -/
def envWitness : EnvironmentParams :=
  { ambient_temperature := 25, relative_humidity := 60, wind_speed := 1
    oxygen_content := 209/10, atmospheric_pressure := 100, pile_height := 3
    storage_duration := 10 }

/-- Witness for C1: the single-cell field `[1/2]` under `envWitness`. -/
theorem temperature_field_bounded_witness :
    envWitness.ambient_temperature ≤ 4967/50
      ∧ (4967/50 : ℚ) ≤ envWitness.ambient_temperature + 180 :=
  temperature_field_bounded envWitness [1/2] (4967/50) (by
    simp only [simulate_temperature_map, envWitness, temp_multiplier, npClip, List.map,
      List.mem_singleton]
    norm_num)

/-- C5: after the normalization step of the coal-property synthesizer the
four properties sum to exactly 100 (whenever the pre-normalization total
is positive, which holds on every non-failing path), the subsequent
clamping step puts each property within its floor/ceiling, and the
post-clamp sum is not re-normalized: there is an input whose clamped sum
differs from 100. -/
theorem coal_properties_normalize_clamp (p : CoalProperties) (hp : 0 < propsTotal p) :
    propsTotal (normalizeProperties p) = 100
      ∧ propsInBounds (clampProperties (normalizeProperties p))
      ∧ ∃ q : CoalProperties, 0 < propsTotal q
          ∧ propsTotal (clampProperties (normalizeProperties q)) ≠ 100 := by
  refine ⟨?_, ?_, ?_⟩
  · simp only [normalizeProperties, propsTotal] at *
    rw [if_pos hp]
    field_simp
    ring
  · simp only [propsInBounds, clampProperties]
    refine ⟨le_max_left _ _, max_le (by norm_num) (min_le_left _ _),
      le_max_left _ _, max_le (by norm_num) (min_le_left _ _),
      le_max_left _ _, max_le (by norm_num) (min_le_left _ _),
      le_max_left _ _, max_le (by norm_num) (min_le_left _ _)⟩
  · refine ⟨⟨22, 25, 17/2, 35⟩, by norm_num [propsTotal], ?_⟩
    norm_num [propsTotal, normalizeProperties, clampProperties]

/-- Witness for C5 at the fallback property set
(moisture 10, volatile_matter 35, ash 15, fixed_carbon 40). -/
theorem coal_properties_normalize_clamp_witness :
    propsTotal (normalizeProperties ⟨10, 35, 15, 40⟩) = 100
      ∧ propsInBounds (clampProperties (normalizeProperties ⟨10, 35, 15, 40⟩))
      ∧ ∃ q : CoalProperties, 0 < propsTotal q
          ∧ propsTotal (clampProperties (normalizeProperties q)) ≠ 100 :=
  coal_properties_normalize_clamp ⟨10, 35, 15, 40⟩ (by norm_num [propsTotal])

/-- C2 counterexample: with a present liability index whose value is 0 (and
everything else absent or safe), the chemical risk score of the code is 0,
not the 5 points of the low-severity liability band that the banded-sum
formula of the claim assigns: the Python `if li:` treats `0` as absent. -/
theorem zero_liability_index_scores_nothing :
    (risk_assessment none (some 0) none none 25 1).risk_score
      ≠ claimedChemicalScore none (some 0) none 25 1 := by
  norm_num [risk_assessment, truthy, claimedChemicalScore, cptBand, liBand, witsBand, envBonus]

/-- C2 amended: the chemical risk score equals the banded sum in which an
index contributes its band exactly when it is present AND nonzero; a
present index with computed value 0 contributes nothing (Python
truthiness), and the environment bonuses are as the claim states. -/
theorem chemical_score_eq_amended_band_sum (cpt li wits oi : Option ℚ)
    (ambient_temp ventilation_rate : ℚ) :
    (risk_assessment cpt li wits oi ambient_temp ventilation_rate).risk_score
      = amendedChemicalScore cpt li wits ambient_temp ventilation_rate := by
  simp only [risk_assessment, amendedChemicalScore, cptBand, liBand, witsBand, envBonus,
    apply_ite (Prod.snd (α := List String) (β := ℚ))]
  ring

/-- C3: the combined score is the arithmetic mean of the chemical and thermal
scores, and both the standalone chemical classification (inside
`risk_assessment`) and the combined-path classification map a score `s` to
CRITICAL/danger when `s ≥ 80`, HIGH/warning when `60 ≤ s < 80`,
MODERATE/info when `40 ≤ s < 60`, and LOW/success otherwise. -/
theorem combined_score_and_category_bands (chemical_score thermal_score : ℚ) :
    combined_risk_score chemical_score thermal_score = (chemical_score + thermal_score) / 2
      ∧ (∀ s : ℚ, combinedClassify s = specCategory s)
      ∧ (∀ (cpt li wits oi : Option ℚ) (ambient_temp ventilation_rate : ℚ),
          ((risk_assessment cpt li wits oi ambient_temp ventilation_rate).overall_risk,
            (risk_assessment cpt li wits oi ambient_temp ventilation_rate).color)
            = specCategory
                (risk_assessment cpt li wits oi ambient_temp ventilation_rate).risk_score) := by
  have hc : ∀ s : ℚ, chemClassify s = specCategory s := by
    intro s
    unfold chemClassify specCategory
    by_cases h80 : 80 ≤ s
    · simp [ge_iff_le, h80]
    · by_cases h60 : 60 ≤ s
      · simp [ge_iff_le, h80, h60, lt_of_not_le h80]
      · by_cases h40 : 40 ≤ s
        · simp [ge_iff_le, h80, h60, h40, lt_of_not_le h60]
        · simp [ge_iff_le, h80, h60, h40]
  have hcc : ∀ s : ℚ, combinedClassify s = specCategory s := by
    intro s
    rw [show combinedClassify s = chemClassify s from rfl]
    exact hc s
  refine ⟨rfl, hcc, ?_⟩
  intro cpt li wits oi ambient_temp ventilation_rate
  calc ((risk_assessment cpt li wits oi ambient_temp ventilation_rate).overall_risk,
        (risk_assessment cpt li wits oi ambient_temp ventilation_rate).color)
      = chemClassify (risk_assessment cpt li wits oi ambient_temp ventilation_rate).risk_score :=
        rfl
    _ = specCategory (risk_assessment cpt li wits oi ambient_temp ventilation_rate).risk_score :=
        hc _

end CoalAnalyzer
